import Mathlib

/-
  Verification of the RiskPulse Montreal risk-scoring core.

  The definitions below are a shallow embedding of the scoring functions of
  src/data_collector_script.py (class RiskPulseDataCollector) and of
  calculate_detailed_weather_risk of src/enhanced_riskpulse_collector.py.
  Python floats are modelled by exact rationals; the wall clock read by
  datetime.now() inside calculate_combined_risk_score is passed explicitly
  as a parameter; optional dict fields read with .get(key, default) are
  modelled as Option values with the same default.
-/

namespace RiskPulse

/-- One weather observation, as consumed by the risk functions: the fields
the scorers read from the OpenWeatherMap payload. The wind speed and the
visibility are read with .get defaults in the source, so they are optional
here; temperature, condition, humidity and pressure are accessed directly. -/
structure WeatherData where
  temp : ℚ
  condition : String
  windSpeed : Option ℚ
  visibility : Option ℚ
  humidity : ℚ
  pressure : ℚ
deriving DecidableEq

/-- The record returned by calculate_combined_risk_score (a Python dict in
the source), with the same seven fields. -/
structure RiskAssessment where
  timestamp : String
  combined_risk_score : ℚ
  weather_risk_component : ℚ
  stock_risk_component : ℚ
  traffic_risk_component : ℚ
  risk_level : String
  recommendations : List String
deriving DecidableEq

/-- Python str.lower(), applied character by character. -/
def lowerStr (s : String) : String := String.mk (s.data.map Char.toLower)

/-- Rounding to the nearest integer, ties to even: the rounding mode of
Python round() on exact values. -/
def roundHalfEven (x : ℚ) : ℤ :=
  let f := ⌊x⌋
  let r := x - f
  if r < 1 / 2 then f
  else if 1 / 2 < r then f + 1
  else if f % 2 = 0 then f else f + 1

/-- Python round(x, 2) on the exact-rational model. -/
def pyRound2 (x : ℚ) : ℚ := (roundHalfEven (x * 100) : ℚ) / 100

/-- Decides whether the list needle occurs as a contiguous run inside the
list haystack: the Python substring test word in text on the char level. -/
def containsSub (needle : List Char) : List Char → Bool
  | [] => needle.isEmpty
  | c :: cs => needle.isPrefixOf (c :: cs) || containsSub needle cs

/-- Python any(word in text for word in words). -/
def anyKeyword (words : List String) (text : String) : Bool :=
  words.any (fun w => containsSub w.data text.data)

/-- categorize_incident_severity, data_collector_script.py lines 297-308. -/
def categorize_incident_severity (incident_type : String) : String :=
  let l := lowerStr incident_type
  if anyKeyword [("accident"), ("collision"), ("crash")] l then ("High")
  else if anyKeyword [("construction"), ("travaux"), ("maintenance")] l then ("Medium")
  else if anyKeyword [("traffic"), ("congestion"), ("embouteillage")] l then ("Low")
  else ("Medium")

/-- Lookup in an association list with a default: the Python expression
dict.get(key, default) for the literal condition dictionaries. -/
def dictGetD (tbl : List (String × ℚ)) (key : String) (dflt : ℚ) : ℚ :=
  match tbl with
  | [] => dflt
  | (k, v) :: rest => if key = k then v else dictGetD rest key dflt

/-- The condition_risks dict literal of calculate_weather_risk
(data_collector_script.py lines 138-147). -/
def condition_table : List (String × ℚ) :=
  [(("thunderstorm"), 4.0), (("drizzle"), 1.5), (("rain"), 2.5), (("snow"), 3.0),
   (("mist"), 1.0), (("fog"), 2.0), (("hail"), 4.5), (("tornado"), 5.0)]

/-- condition_risks.get(condition, 0) of calculate_weather_risk (line 148):
lookup with default 0 for an unseen condition. -/
def condition_risks (condition : String) : ℚ :=
  dictGetD condition_table condition 0

/-- Temperature contribution of calculate_weather_risk (lines 128-134). -/
def baseline_temp_risk (temp : ℚ) : ℚ :=
  if temp < -20 ∨ temp > 35 then 3.0
  else if temp < -10 ∨ temp > 30 then 2.0
  else if temp < 0 ∨ temp > 25 then 1.0
  else 0

/-- Wind contribution of calculate_weather_risk (lines 151-155). -/
def baseline_wind_risk (wind_speed : ℚ) : ℚ :=
  if wind_speed > 15 then 2.0
  else if wind_speed > 10 then 1.0
  else 0

/-- Visibility contribution of calculate_weather_risk (lines 158-162). -/
def baseline_visibility_risk (visibility : ℚ) : ℚ :=
  if visibility < 1000 then 2.0
  else if visibility < 5000 then 1.0
  else 0

/-- calculate_weather_risk, data_collector_script.py lines 115-165: the
additive point total over temperature, condition, wind and visibility,
capped by min(.., 10.0). Wind defaults to 0 and visibility to 10000 when
absent, as in weather_data.get(..) of the source. -/
def calculate_weather_risk (w : WeatherData) : ℚ :=
  min (baseline_temp_risk w.temp
      + condition_risks (lowerStr w.condition)
      + baseline_wind_risk (w.windSpeed.getD 0)
      + baseline_visibility_risk (w.visibility.getD 10000)) 10.0

/-- The condition_risks dict literal of calculate_detailed_weather_risk
(enhanced_riskpulse_collector.py lines 231-236). -/
def detailed_condition_table : List (String × ℚ) :=
  [(("thunderstorm"), 4.5), (("drizzle"), 1.5), (("rain"), 2.5), (("snow"), 3.5),
   (("mist"), 1.5), (("smoke"), 2.0), (("haze"), 1.5), (("dust"), 2.5),
   (("fog"), 3.0), (("sand"), 2.5), (("ash"), 4.0), (("squall"), 4.0),
   (("tornado"), 5.0), (("clear"), 0.0), (("clouds"), 0.5)]

/-- condition_risks.get(condition, 1.0) of calculate_detailed_weather_risk
(line 237): lookup with default 1.0 for an unseen condition. -/
def detailed_condition_risks (condition : String) : ℚ :=
  dictGetD detailed_condition_table condition 1.0

/-- Temperature contribution of calculate_detailed_weather_risk
(lines 219-227). -/
def detailed_temp_risk (temp : ℚ) : ℚ :=
  if temp < -30 then 4.0
  else if temp < -20 then 3.0
  else if temp < -10 then 2.0
  else if temp < 0 then 1.0
  else if temp > 40 then 4.0
  else if temp > 35 then 3.0
  else if temp > 30 then 2.0
  else if temp > 25 then 1.0
  else 0

/-- Wind contribution of calculate_detailed_weather_risk (lines 240-243). -/
def detailed_wind_risk (wind_speed : ℚ) : ℚ :=
  if wind_speed > 25 then 3.0
  else if wind_speed > 15 then 2.0
  else if wind_speed > 10 then 1.0
  else 0

/-- Visibility contribution of calculate_detailed_weather_risk
(lines 246-249). -/
def detailed_visibility_risk (visibility : ℚ) : ℚ :=
  if visibility < 500 then 3.0
  else if visibility < 1000 then 2.0
  else if visibility < 5000 then 1.0
  else 0

/-- Humidity contribution of calculate_detailed_weather_risk
(lines 252-254). -/
def detailed_humidity_risk (humidity : ℚ) : ℚ :=
  if humidity > 90 ∨ humidity < 20 then 1.0 else 0

/-- Pressure contribution of calculate_detailed_weather_risk
(lines 257-260). -/
def detailed_pressure_risk (pressure : ℚ) : ℚ :=
  if pressure < 980 then 2.0
  else if pressure < 1000 then 1.0
  else if pressure > 1030 then 1.0
  else 0

/-- calculate_detailed_weather_risk, enhanced_riskpulse_collector.py lines
214-262: additive points over temperature, condition, wind, visibility,
humidity and pressure, capped by min(.., 10.0). -/
def calculate_detailed_weather_risk (w : WeatherData) : ℚ :=
  min (detailed_temp_risk w.temp
      + detailed_condition_risks (lowerStr w.condition)
      + detailed_wind_risk (w.windSpeed.getD 0)
      + detailed_visibility_risk (w.visibility.getD 10000)
      + detailed_humidity_risk w.humidity
      + detailed_pressure_risk w.pressure) 10.0

/-- The guarded average of the stock branch, lines 356-357: None when the
sequence is empty (the Python code never divides in that case). -/
def stockAvg (change_percents : List ℚ) : Option ℚ :=
  if change_percents.isEmpty then none
  else some (change_percents.sum / change_percents.length)

/-- The pre-weight stock sub-score, lines 356-361 of
data_collector_script.py before the * 0.3 weighting: 0 on an empty
sequence, otherwise max(0, (-avg / 10) * 3). -/
def stockRisk (change_percents : List ℚ) : ℚ :=
  match stockAvg change_percents with
  | none => 0
  | some avg => max 0 (-avg / 10 * 3)

/-- The pre-weight traffic sub-score, line 365 of data_collector_script.py
before the * 0.3 weighting: min(count * 0.5, 3). -/
def trafficRisk (incident_count : ℕ) : ℚ :=
  min ((incident_count : ℚ) * 0.5) 3

/-- get_risk_level, data_collector_script.py lines 379-390. -/
def get_risk_level (score : ℚ) : String :=
  if score ≥ 7 then ("CRITICAL")
  else if score ≥ 5 then ("HIGH")
  else if score ≥ 3 then ("MODERATE")
  else if score ≥ 1 then ("LOW")
  else ("MINIMAL")

/-- get_risk_recommendations, data_collector_script.py lines 392-413. -/
def get_risk_recommendations (score : ℚ) : List String :=
  if score ≥ 7 then
    ["Deploy additional claims adjusters",
     "Activate emergency response protocols",
     "Notify high-risk policyholders",
     "Increase call center capacity"]
  else if score ≥ 5 then
    ["Monitor weather conditions closely",
     "Pre-position claims resources",
     "Review high-risk policies"]
  else if score ≥ 3 then
    ["Standard monitoring procedures",
     "Review daily risk assessment"]
  else
    ["Normal operations"]

/-- calculate_combined_risk_score, data_collector_script.py lines 339-377.
The weather dict argument is reduced to its weather_risk_score entry, read
with .get(.., 0), hence an Option here; the stock list to its
change_percent entries; the traffic incident list keeps only as much shape
as the function uses, namely its length. The timestamp that the source
takes from datetime.now() is the explicit now argument. -/
def calculate_combined_risk_score (now : String) (weather_risk_score : Option ℚ)
    (stock_changes : List ℚ) (traffic_data : List String) : RiskAssessment :=
  let weather_risk := (weather_risk_score.getD 0) * 0.4
  let stock_risk :=
    if stock_changes.isEmpty then 0
    else max 0 (-(stock_changes.sum / stock_changes.length) / 10 * 3) * 0.3
  let traffic_risk := min ((traffic_data.length : ℚ) * 0.5) 3 * 0.3
  let combined_score := weather_risk + stock_risk + traffic_risk
  { timestamp := now
    combined_risk_score := pyRound2 combined_score
    weather_risk_component := pyRound2 weather_risk
    stock_risk_component := pyRound2 stock_risk
    traffic_risk_component := pyRound2 traffic_risk
    risk_level := get_risk_level combined_score
    recommendations := get_risk_recommendations combined_score }

/-- The risk level classifier as the spec words it in section 4.5:
inclusive lower bounds 7, 5, 3, 1 over all rational scores. -/
def classifyRiskLevel_spec (score : ℚ) : String :=
  if 7 ≤ score then ("CRITICAL")
  else if 5 ≤ score then ("HIGH")
  else if 3 ≤ score then ("MODERATE")
  else if 1 ≤ score then ("LOW")
  else ("MINIMAL")

/-- The incident severity classifier exactly as claim C8 words it: High
keywords collision, accident, crash checked first, then Medium keywords
construction, maintenance, then Low keywords traffic, congestion, with
Medium when no keyword matches. -/
def classifySeverity_claim (incident_type : String) : String :=
  let l := lowerStr incident_type
  if anyKeyword [("collision"), ("accident"), ("crash")] l then ("High")
  else if anyKeyword [("construction"), ("maintenance")] l then ("Medium")
  else if anyKeyword [("traffic"), ("congestion")] l then ("Low")
  else ("Medium")

/-- The incident severity classifier of claim C8 amended minimally: the
keyword set for Medium also holds travaux and the keyword set for Low also
holds embouteillage, as the source lists do; the claimed ordering of the
other keywords is kept. -/
def classifySeverity_amended (incident_type : String) : String :=
  let l := lowerStr incident_type
  if anyKeyword [("collision"), ("accident"), ("crash")] l then ("High")
  else if anyKeyword [("construction"), ("maintenance"), ("travaux")] l then ("Medium")
  else if anyKeyword [("traffic"), ("congestion"), ("embouteillage")] l then ("Low")
  else ("Medium")

/-- Lookup with a default stays non-negative when every table entry and
the default are non-negative. -/
theorem dictGetD_nonneg (tbl : List (String × ℚ)) (key : String) (dflt : ℚ)
    (htbl : ∀ p ∈ tbl, 0 ≤ p.2) (hd : 0 ≤ dflt) : 0 ≤ dictGetD tbl key dflt := by
  induction tbl with
  | nil => exact hd
  | cons p rest ih =>
    rw [dictGetD]
    split
    · exact htbl p (List.mem_cons_self p rest)
    · exact ih fun q hq => htbl q (List.mem_cons_of_mem p hq)

/-- Every entry of the baseline condition table is non-negative. -/
theorem condition_risks_nonneg (c : String) : 0 ≤ condition_risks c := by
  refine dictGetD_nonneg _ _ _ (fun p hp => ?_) le_rfl
  fin_cases hp <;> norm_num

/-- The baseline temperature contribution is non-negative. -/
theorem baseline_temp_risk_nonneg (t : ℚ) : 0 ≤ baseline_temp_risk t := by
  unfold baseline_temp_risk
  split_ifs <;> norm_num

/-- The baseline wind contribution is non-negative. -/
theorem baseline_wind_risk_nonneg (v : ℚ) : 0 ≤ baseline_wind_risk v := by
  unfold baseline_wind_risk
  split_ifs <;> norm_num

/-- The baseline visibility contribution is non-negative. -/
theorem baseline_visibility_risk_nonneg (v : ℚ) : 0 ≤ baseline_visibility_risk v := by
  unfold baseline_visibility_risk
  split_ifs <;> norm_num

/-- Every entry of the detailed condition table is non-negative. -/
theorem detailed_condition_risks_nonneg (c : String) : 0 ≤ detailed_condition_risks c := by
  refine dictGetD_nonneg _ _ _ (fun p hp => ?_) (by norm_num)
  fin_cases hp <;> norm_num

/-- The detailed temperature contribution is non-negative. -/
theorem detailed_temp_risk_nonneg (t : ℚ) : 0 ≤ detailed_temp_risk t := by
  unfold detailed_temp_risk
  split_ifs <;> norm_num

/-- The detailed wind contribution is non-negative. -/
theorem detailed_wind_risk_nonneg (v : ℚ) : 0 ≤ detailed_wind_risk v := by
  unfold detailed_wind_risk
  split_ifs <;> norm_num

/-- The detailed visibility contribution is non-negative. -/
theorem detailed_visibility_risk_nonneg (v : ℚ) : 0 ≤ detailed_visibility_risk v := by
  unfold detailed_visibility_risk
  split_ifs <;> norm_num

/-- The detailed humidity contribution is non-negative. -/
theorem detailed_humidity_risk_nonneg (v : ℚ) : 0 ≤ detailed_humidity_risk v := by
  unfold detailed_humidity_risk
  split_ifs <;> norm_num

/-- The detailed pressure contribution is non-negative. -/
theorem detailed_pressure_risk_nonneg (v : ℚ) : 0 ≤ detailed_pressure_risk v := by
  unfold detailed_pressure_risk
  split_ifs <;> norm_num

/-- Swapping the first two keywords does not change the match result. -/
theorem anyKeyword_swap_head (w1 w2 : String) (ws : List String) (t : String) :
    anyKeyword (w1 :: w2 :: ws) t = anyKeyword (w2 :: w1 :: ws) t := by
  simp only [anyKeyword, List.any_cons]
  cases containsSub w1.data t.data <;> cases containsSub w2.data t.data <;> simp

/-- Swapping the second and third keywords does not change the match
result. -/
theorem anyKeyword_swap_tail (w1 w2 w3 : String) (ws : List String) (t : String) :
    anyKeyword (w1 :: w2 :: w3 :: ws) t = anyKeyword (w1 :: w3 :: w2 :: ws) t := by
  simp only [anyKeyword, List.any_cons]
  cases containsSub w2.data t.data <;> cases containsSub w3.data t.data <;> simp

/-- The weighted stock branch of calculate_combined_risk_score agrees with
the pre-weight sub-score stockRisk times 0.3. -/
theorem stock_branch_eq (cs : List ℚ) :
    (if cs.isEmpty then 0 else max 0 (-(cs.sum / cs.length) / 10 * 3) * 0.3)
      = stockRisk cs * 0.3 := by
  rcases cs with _ | ⟨x, xs⟩
  · simp [stockRisk, stockAvg]
  · rfl

/-- C2: for every well-typed weather signal the weather risk lies in the
interval from 0 to 10, in the baseline variant and in the detailed one. -/
theorem c2_weather_risk_bounded (w : WeatherData) :
    0 ≤ calculate_weather_risk w ∧ calculate_weather_risk w ≤ 10 ∧
    0 ≤ calculate_detailed_weather_risk w ∧ calculate_detailed_weather_risk w ≤ 10 := by
  have h1 : 0 ≤ baseline_temp_risk w.temp + condition_risks (lowerStr w.condition)
      + baseline_wind_risk (w.windSpeed.getD 0)
      + baseline_visibility_risk (w.visibility.getD 10000) :=
    add_nonneg (add_nonneg (add_nonneg (baseline_temp_risk_nonneg _)
      (condition_risks_nonneg _)) (baseline_wind_risk_nonneg _))
      (baseline_visibility_risk_nonneg _)
  have h2 : 0 ≤ detailed_temp_risk w.temp + detailed_condition_risks (lowerStr w.condition)
      + detailed_wind_risk (w.windSpeed.getD 0)
      + detailed_visibility_risk (w.visibility.getD 10000)
      + detailed_humidity_risk w.humidity + detailed_pressure_risk w.pressure :=
    add_nonneg (add_nonneg (add_nonneg (add_nonneg (add_nonneg
      (detailed_temp_risk_nonneg _) (detailed_condition_risks_nonneg _))
      (detailed_wind_risk_nonneg _)) (detailed_visibility_risk_nonneg _))
      (detailed_humidity_risk_nonneg _)) (detailed_pressure_risk_nonneg _)
  refine ⟨le_min h1 (by norm_num), le_trans (min_le_right _ _) (by norm_num),
    le_min h2 (by norm_num), le_trans (min_le_right _ _) (by norm_num)⟩

/-- C1: the composite score is the three sub-scores combined exactly once,
with the fixed weights 0.4, 0.3 and 0.3, reported rounded to two decimal
places; with all sub-scores maxed (weather 10, stock 3 from a minus ten
percent average, traffic 3 from six incidents) the composite is 5.8 and is
classified HIGH. -/
theorem c1_composite_weighted_sum :
    (∀ (now : String) (w : Option ℚ) (cs : List ℚ) (td : List String),
      (calculate_combined_risk_score now w cs td).combined_risk_score
        = pyRound2 ((w.getD 0) * 0.4 + stockRisk cs * 0.3 + trafficRisk td.length * 0.3)) ∧
    (calculate_combined_risk_score ("2024-01-15T12:00:00") (some 10) [-10]
        [("i1"), ("i2"), ("i3"), ("i4"), ("i5"), ("i6")]).combined_risk_score = 5.8 ∧
    (calculate_combined_risk_score ("2024-01-15T12:00:00") (some 10) [-10]
        [("i1"), ("i2"), ("i3"), ("i4"), ("i5"), ("i6")]).risk_level = ("HIGH") := by
  refine ⟨fun now w cs td => ?_, ?_, ?_⟩
  · simp only [calculate_combined_risk_score, trafficRisk]
    rw [← stock_branch_eq]
  · norm_num [calculate_combined_risk_score, pyRound2, roundHalfEven]
  · norm_num [calculate_combined_risk_score, get_risk_level]

/-- C4: get_risk_level is the total, deterministic five-level classifier
with inclusive lower bounds 7, 5, 3 and 1 of the spec, with no error case
for any rational score, and the boundary examples evaluate as claimed. -/
theorem c4_risk_level_classifier :
    (∀ s : ℚ, get_risk_level s = classifyRiskLevel_spec s) ∧
    (∀ s : ℚ,
      (7 ≤ s → get_risk_level s = ("CRITICAL")) ∧
      (5 ≤ s → s < 7 → get_risk_level s = ("HIGH")) ∧
      (3 ≤ s → s < 5 → get_risk_level s = ("MODERATE")) ∧
      (1 ≤ s → s < 3 → get_risk_level s = ("LOW")) ∧
      (s < 1 → get_risk_level s = ("MINIMAL"))) ∧
    get_risk_level 7 = ("CRITICAL") ∧
    get_risk_level (6.99 : ℚ) = ("HIGH") ∧
    get_risk_level (0.5 : ℚ) = ("MINIMAL") := by
  refine ⟨fun s => rfl, fun s => ?_, by norm_num [get_risk_level],
    by norm_num [get_risk_level], by norm_num [get_risk_level]⟩
  unfold get_risk_level
  refine ⟨fun h => ?_, fun h1 h2 => ?_, fun h1 h2 => ?_, fun h1 h2 => ?_, fun h => ?_⟩ <;>
    split_ifs <;> first | rfl | linarith

/-- Witness for C4: the classifier applied at the concrete scores 8 and 6
through the theorem itself. -/
theorem c4_risk_level_classifier_witness :
    get_risk_level 8 = ("CRITICAL") ∧ get_risk_level 6 = ("HIGH") :=
  ⟨(c4_risk_level_classifier.2.1 8).1 (by norm_num),
   (c4_risk_level_classifier.2.1 6).2.1 (by norm_num) (by norm_num)⟩

/-- C5 counterexample: a concrete assessment whose reported composite,
0.09, differs from the sum of its three reported components, 0.08; the
fields are each rounded to two decimals on their own, so additivity of the
reported values fails. -/
theorem c5_counterexample :
    (calculate_combined_risk_score ("t") (some 0.11) [-22/45] []).combined_risk_score
      ≠ (calculate_combined_risk_score ("t") (some 0.11) [-22/45] []).weather_risk_component
        + (calculate_combined_risk_score ("t") (some 0.11) [-22/45] []).stock_risk_component
        + (calculate_combined_risk_score ("t") (some 0.11) [-22/45] []).traffic_risk_component := by
  norm_num [calculate_combined_risk_score, pyRound2, roundHalfEven]

/-- C5 amended: the reported composite equals the rounding of the sum of
the three full-precision weighted components, and each reported component
is its own full-precision value rounded; the sum of the reported
components may therefore differ from the reported composite. -/
theorem c5_component_sum_invariant :
    ∀ (now : String) (w : Option ℚ) (cs : List ℚ) (td : List String),
      (calculate_combined_risk_score now w cs td).combined_risk_score
        = pyRound2 ((w.getD 0) * 0.4 + stockRisk cs * 0.3 + trafficRisk td.length * 0.3) ∧
      (calculate_combined_risk_score now w cs td).weather_risk_component
        = pyRound2 ((w.getD 0) * 0.4) ∧
      (calculate_combined_risk_score now w cs td).stock_risk_component
        = pyRound2 (stockRisk cs * 0.3) ∧
      (calculate_combined_risk_score now w cs td).traffic_risk_component
        = pyRound2 (trafficRisk td.length * 0.3) := by
  intro now w cs td
  refine ⟨?_, rfl, ?_, rfl⟩
  · simp only [calculate_combined_risk_score, trafficRisk]
    rw [← stock_branch_eq]
  · simp only [calculate_combined_risk_score]
    rw [← stock_branch_eq]

/-- C3 counterexample: the pre-weight stock sub-score of the single change
minus twenty percent is 6, not 3, and exceeds the claimed upper bound 3:
the source applies no clamp after max(0, (-avg / 10) * 3). -/
theorem c3_counterexample :
    stockRisk [-20] = 6 ∧ stockRisk [-20] ≠ 3 ∧ ¬ stockRisk [-20] ≤ 3 := by
  norm_num [stockRisk, stockAvg]

/-- C3 amended: for every non-empty sequence of percentage changes the
stock sub-score equals max(0, (-average / 10) * 3) and is non-negative,
but it has no upper clamp at 3: positive five gives 0, minus ten gives 3,
and minus twenty gives 6. -/
theorem c3_stock_formula :
    (∀ cs : List ℚ, cs ≠ [] →
      stockRisk cs = max 0 (-(cs.sum / cs.length) / 10 * 3) ∧ 0 ≤ stockRisk cs) ∧
    stockRisk [5] = 0 ∧ stockRisk [-10] = 3 ∧ stockRisk [-20] = 6 := by
  refine ⟨fun cs h => ?_, by norm_num [stockRisk, stockAvg],
    by norm_num [stockRisk, stockAvg], by norm_num [stockRisk, stockAvg]⟩
  rcases cs with _ | ⟨x, xs⟩
  · exact absurd rfl h
  · exact ⟨rfl, le_max_left 0 _⟩

/-- Witness for C3: the amended formula applied through the theorem itself
at the concrete one-element sequence minus ten. -/
theorem c3_stock_formula_witness :
    stockRisk [-10] = max 0 (-(List.sum [-10] / (List.length [(-10 : ℚ)] : ℚ)) / 10 * 3)
      ∧ 0 ≤ stockRisk [-10] :=
  c3_stock_formula.1 [-10] (List.cons_ne_nil _ _)

/-- C6: the stock sub-score of the empty sequence is 0 without any
division, the reported stock component is then 0, and the average that
feeds the division is computed only behind the nonemptiness guard. -/
theorem c6_stock_empty_guard :
    stockRisk [] = 0 ∧
    (∀ (now : String) (w : Option ℚ) (td : List String),
      (calculate_combined_risk_score now w [] td).stock_risk_component = 0) ∧
    stockAvg [] = none ∧
    (∀ cs : List ℚ, cs ≠ [] →
      ∃ a, stockAvg cs = some a ∧ stockRisk cs = max 0 (-a / 10 * 3)) := by
  refine ⟨rfl, fun now w td => ?_, rfl, fun cs h => ?_⟩
  · norm_num [calculate_combined_risk_score, pyRound2, roundHalfEven]
  · rcases cs with _ | ⟨x, xs⟩
    · exact absurd rfl h
    · exact ⟨_, rfl, rfl⟩

/-- Witness for C6: the guarded-average branch applied through the theorem
itself at the concrete one-element sequence minus ten. -/
theorem c6_stock_empty_guard_witness :
    ∃ a, stockAvg [(-10 : ℚ)] = some a ∧ stockRisk [(-10 : ℚ)] = max 0 (-a / 10 * 3) :=
  c6_stock_empty_guard.2.2.2 [-10] (List.cons_ne_nil _ _)

/-- C7: the traffic sub-score is min(count times 0.5, 3) for every count,
lies between 0 and 3 before weighting, and evaluates to 0, 2 and 3 at the
counts 0, 4 and 10. -/
theorem c7_traffic_risk :
    (∀ n : ℕ, trafficRisk n = min ((n : ℚ) * 0.5) 3
      ∧ 0 ≤ trafficRisk n ∧ trafficRisk n ≤ 3) ∧
    trafficRisk 0 = 0 ∧ trafficRisk 4 = 2 ∧ trafficRisk 10 = 3 := by
  refine ⟨fun n => ⟨rfl, le_min ?_ (by norm_num), min_le_right _ _⟩,
    by norm_num [trafficRisk], by norm_num [trafficRisk], by norm_num [trafficRisk]⟩
  exact mul_nonneg (Nat.cast_nonneg n) (by norm_num)

/-- C8 counterexample: on the input embouteillage the source classifier
returns Low through its keyword embouteillage, while the classifier of the
claim, whose keyword sets lack that word, returns the default Medium. -/
theorem c8_counterexample :
    categorize_incident_severity ("embouteillage") = ("Low") ∧
    classifySeverity_claim ("embouteillage") = ("Medium") ∧
    ("Low" : String) ≠ ("Medium") := by
  refine ⟨by decide, by decide, by decide⟩

/-- C8 amended: the source classifier coincides with the claimed one once
travaux is added to the Medium keywords and embouteillage to the Low
keywords, and the three concrete examples of the claim evaluate as
stated. -/
theorem c8_severity_classifier :
    (∀ s : String, categorize_incident_severity s = classifySeverity_amended s) ∧
    categorize_incident_severity ("Multi-vehicle collision") = ("High") ∧
    categorize_incident_severity ("Travaux routiers") = ("Medium") ∧
    categorize_incident_severity ("unexpected gremlins") = ("Medium") := by
  refine ⟨fun s => ?_, by decide, by decide, by decide⟩
  simp only [categorize_incident_severity, classifySeverity_amended]
  rw [anyKeyword_swap_head ("accident") ("collision") [("crash")] (lowerStr s),
    anyKeyword_swap_tail ("construction") ("travaux") ("maintenance") [] (lowerStr s)]

/-- C9 counterexample: two calls of calculate_combined_risk_score with
identical data inputs but made at different wall-clock instants return
different records, because the record embeds the call-time timestamp. -/
theorem c9_counterexample :
    calculate_combined_risk_score ("2024-01-15T12:00:00") (some 10) [-10] []
      ≠ calculate_combined_risk_score ("2024-01-15T12:00:01") (some 10) [-10] [] :=
  fun h => absurd (congrArg RiskAssessment.timestamp h) (by decide)

/-- C9 amended: every scoring function is a deterministic function of its
data inputs, and two composite assessments computed at different instants
from the same data agree on every field except the timestamp, which is the
clock reading of the respective call. -/
theorem c9_pure_scoring :
    (∀ w : WeatherData, calculate_weather_risk w = calculate_weather_risk w) ∧
    (∀ w : WeatherData, calculate_detailed_weather_risk w = calculate_detailed_weather_risk w) ∧
    (∀ cs : List ℚ, stockRisk cs = stockRisk cs) ∧
    (∀ n : ℕ, trafficRisk n = trafficRisk n) ∧
    (∀ s : String, categorize_incident_severity s = categorize_incident_severity s) ∧
    (∀ (t1 t2 : String) (w : Option ℚ) (cs : List ℚ) (td : List String),
      (calculate_combined_risk_score t1 w cs td).combined_risk_score
        = (calculate_combined_risk_score t2 w cs td).combined_risk_score ∧
      (calculate_combined_risk_score t1 w cs td).weather_risk_component
        = (calculate_combined_risk_score t2 w cs td).weather_risk_component ∧
      (calculate_combined_risk_score t1 w cs td).stock_risk_component
        = (calculate_combined_risk_score t2 w cs td).stock_risk_component ∧
      (calculate_combined_risk_score t1 w cs td).traffic_risk_component
        = (calculate_combined_risk_score t2 w cs td).traffic_risk_component ∧
      (calculate_combined_risk_score t1 w cs td).risk_level
        = (calculate_combined_risk_score t2 w cs td).risk_level ∧
      (calculate_combined_risk_score t1 w cs td).recommendations
        = (calculate_combined_risk_score t2 w cs td).recommendations ∧
      (calculate_combined_risk_score t1 w cs td).timestamp = t1 ∧
      (calculate_combined_risk_score t2 w cs td).timestamp = t2) :=
  ⟨fun _ => rfl, fun _ => rfl, fun _ => rfl, fun _ => rfl, fun _ => rfl,
   fun _ _ _ _ _ => ⟨rfl, rfl, rfl, rfl, rfl, rfl, rfl, rfl⟩⟩

/-- C10 counterexample: a clear, calm signal with the visibility field
absent scores 0, but the same signal with visibility reported as 0 scores
2: an absent visibility is not scored as if it were 0. -/
theorem c10_counterexample :
    calculate_weather_risk (WeatherData.mk 10 ("clear") none none 50 1013) = 0 ∧
    calculate_weather_risk (WeatherData.mk 10 ("clear") none (some 0) 50 1013) = 2 ∧
    calculate_weather_risk (WeatherData.mk 10 ("clear") none none 50 1013)
      ≠ calculate_weather_risk (WeatherData.mk 10 ("clear") none (some 0) 50 1013) := by
  have hc : condition_risks (lowerStr ("clear")) = 0 := by decide
  refine ⟨?_, ?_, ?_⟩ <;>
    norm_num [calculate_weather_risk, baseline_temp_risk, baseline_wind_risk,
      baseline_visibility_risk, hc]

/-- C10 amended: an absent wind speed defaults to 0 and an absent
visibility defaults to 10000 before scoring, in both variants; the
visibility default is neutral, adding no visibility risk, as is the wind
default. -/
theorem c10_optional_field_defaults :
    ∀ w : WeatherData,
      calculate_weather_risk { w with windSpeed := none }
        = calculate_weather_risk { w with windSpeed := some 0 } ∧
      calculate_weather_risk { w with visibility := none }
        = calculate_weather_risk { w with visibility := some 10000 } ∧
      calculate_detailed_weather_risk { w with windSpeed := none }
        = calculate_detailed_weather_risk { w with windSpeed := some 0 } ∧
      calculate_detailed_weather_risk { w with visibility := none }
        = calculate_detailed_weather_risk { w with visibility := some 10000 } ∧
      baseline_wind_risk 0 = 0 ∧ baseline_visibility_risk 10000 = 0 ∧
      detailed_wind_risk 0 = 0 ∧ detailed_visibility_risk 10000 = 0 :=
  fun w => ⟨rfl, rfl, rfl, rfl, by norm_num [baseline_wind_risk],
    by norm_num [baseline_visibility_risk], by norm_num [detailed_wind_risk],
    by norm_num [detailed_visibility_risk]⟩

end RiskPulse
